import Mathlib

/-!
Verification of the EOS statistical sampling engine specification against the
repository sources.

The development shallowly embeds the relevant program parts:

* the command line front end of the tool named eos-scan-mc, transcribed from
  its main source file: command line arguments become a list of tokens, C++
  doubles become rationals, and exceptions of class DoUsage become values of
  an error monad;
* the B-meson and B_c-meson light-cone distribution amplitude classes
  (BMesonLCDAs and BcMesonLCDAs), transcribed from their implementation file;
  the double-precision library routines (std::exp, std::log, the exponential
  integral and the incomplete gamma function) are modelled as unspecified
  rational maps collected in a record, since none of the verified claims
  depends on their values;
* the parts of the Markov chain sampling core whose C++ implementation files
  are not among the reviewed sources (the Gelman-Rubin diagnostic, the
  Metropolis accept/reject rule, the seeded sampling loop, and chunked
  resumable storage).  Those are modelled from the specification text; each
  such definition carries a doc comment saying so.

Floating point is modelled by exact rational (and, for the square root in the
Gelman-Rubin statistic, real) arithmetic.
-/

/- ------------------------------------------------------------------ -/
/- Command line tokens.  Every argv entry is a string; entries that the
   program feeds to destringify are modelled as rational-valued tokens,
   entries compared against literal flags as string tokens. -/

inductive Tok where
  | str : String → Tok
  | num : ℚ → Tok
deriving DecidableEq

def Tok.asString : Tok → String
  | Tok.str s => s
  | Tok.num q => toString q

/-- destringify of a double: a numeric token yields its value, a
non-numeric string raises a DestringifyError. -/
def destringifyQ : Tok → Except String ℚ
  | Tok.num q => Except.ok q
  | Tok.str s => Except.error ("DestringifyError: " ++ s)

/-- destringify of an unsigned integer value. -/
def destringifyNat : Tok → Except String ℕ
  | Tok.num q =>
      if q.den = 1 ∧ 0 ≤ q.num then Except.ok q.num.toNat
      else Except.error "DestringifyError: unsigned integer expected"
  | Tok.str s => Except.error ("DestringifyError: " ++ s)

/-- The largest double value, used by the scan branch as the initial hard
range before any user bound is read. -/
def dblMax : ℚ := 2 ^ 1024 - 2 ^ 971

/-- Modelled from the spec: the utility class VerifiedRange, whose
implementation file is not among the reviewed sources, rejects a value
outside its declared interval at construction time. -/
def verifiedRange (lo hi v : ℚ) : Except String ℚ :=
  if lo ≤ v ∧ v ≤ hi then Except.ok v else Except.error "VerifiedRangeError"

/- ------------------------------------------------------------------ -/
/- The sampler configuration record, MarkovChainSampler::Config, restricted
   to the fields touched by the command line front end. -/

structure MCMCConfig where
  number_of_chains : ℕ
  chunk_size : ℕ
  chunks : ℕ
  need_prerun : Bool
  need_main_run : Bool
  store_prerun : Bool
  parallelize : Bool
  use_strict_rvalue_definition : Bool
  prerun_iterations_min : ℕ
  prerun_iterations_max : ℕ
  prerun_iterations_update : ℕ
  proposal : String
  student_t_degrees_of_freedom : ℚ
  seed : ℕ
  output_file : String
deriving DecidableEq

/-- The per-parameter record pushed by the scan branch (struct ParameterData
in the source; the Parameter handle is identified by its name). -/
structure ParameterData where
  name : String
  min : ℚ
  max : ℚ
  prior : String
deriving DecidableEq

/-- A prior specification as handed to LogPosterior (LogPrior::Flat or
LogPrior::Gauss with the adjusted range). -/
inductive LogPriorSpec where
  | flat : String → ℚ → ℚ → LogPriorSpec
  | gauss : String → ℚ → ℚ → ℚ → ℚ → ℚ → LogPriorSpec
deriving DecidableEq

def LogPriorSpec.paramName : LogPriorSpec → String
  | LogPriorSpec.flat n _ _ => n
  | LogPriorSpec.gauss n _ _ _ _ _ => n

/-- The posterior as seen by the front end: the ordered parameter
descriptions (name and nuisance flag) and the registered priors. -/
structure PosteriorModel where
  descriptions : List (String × Bool)
  priors : List LogPriorSpec
deriving DecidableEq

/-- Modelled from the spec: LogPosterior::add, whose implementation file is
not among the reviewed sources, registers a parameter together with its
prior and nuisance flag; it reports failure when the parameter was already
assigned a prior (duplicate parameter prior assignment) and success
otherwise.  Failure is modelled by none, success by the extended record. -/
def PosteriorModel.add (lp : PosteriorModel) (prior : LogPriorSpec) (nuisance : Bool) :
    Option PosteriorModel :=
  if prior.paramName ∈ lp.descriptions.map Prod.fst then none
  else some { descriptions := lp.descriptions ++ [(prior.paramName, nuisance)]
            , priors := lp.priors ++ [prior] }

/-- The mutable state of class CommandLine that the modelled flags touch.
The physics side (likelihood, observables, constraints, kinematics) is
outside the scope of the claims and is not part of the record. -/
structure CmdState where
  mcmc_config : MCMCConfig
  log_posterior : PosteriorModel
  scan_parameters : List ParameterData
  nuisance_parameters : List ParameterData
  use_pmc : Bool
  scale_reduction : ℚ
deriving DecidableEq

/-- The CommandLine constructor: it starts from Config::Quick (an arbitrary
record, passed in as quick since that factory is not among the reviewed
sources) and then overrides the five fields set in the constructor body. -/
def CmdState.init (quick : MCMCConfig) : CmdState :=
  { mcmc_config := { quick with
      number_of_chains := 4
      , need_prerun := true
      , chunk_size := 1000
      , parallelize := false
      , use_strict_rvalue_definition := true }
  , log_posterior := { descriptions := [], priors := [] }
  , scan_parameters := []
  , nuisance_parameters := []
  , use_pmc := false
  , scale_reduction := 1 }

/- ------------------------------------------------------------------ -/
/- CommandLine::parse.  The loop walks the argument vector once; each flag
   consumes its trailing value tokens and continues.  The first list
   argument is a copy of the token list used only as recursion gas: every
   loop iteration consumes at least the flag token itself, so the gas never
   runs out on the inputs parse feeds in.  The now argument models the value
   of time(0) read by the seed branch.

   Branches acting exclusively on objects outside the modelled state are
   omitted: observables, constraints, kinematics, global options, the
   goodness-of-fit and optimize switches, the print-args debugging aid, and
   everything guarded by EOS_ENABLE_PMC (the model takes that preprocessor
   switch as disabled).  No theorem below feeds those flags in. -/

def parseArgs (now : ℕ) : List Tok → CmdState → List Tok → Except String CmdState
  | _, st, [] => Except.ok st
  | [], _, _ :: _ => Except.error "out of gas"
  | _ :: gas, st, arg :: args =>
    if arg = Tok.str "--scan" ∨ arg = Tok.str "--nuisance" then
      -- format: N_SIGMAS in [0, 10]
      -- a) --scan PAR N_SIGMAS --prior ...
      -- b) --scan PAR MIN MAX  --prior ...
      -- c) --scan PAR HARD_MIN HARD_MAX N_SIGMAS --prior ...
      match args with
      | nameTok :: numTok :: kw1 :: args3 =>
        let nuis : Bool := arg = Tok.str "--nuisance"
        let name := nameTok.asString
        -- the common tail: the prior keyword has been consumed, the range
        -- and the number of sigmas are fixed, toks starts at the prior type
        let handlePrior : ℚ → ℚ → ℚ → List Tok → Except String CmdState :=
          fun mn mx ns toks =>
          match toks with
          | [] => Except.error "unexpected end of arguments"
          | ptypeTok :: toks2 =>
            let ptype := ptypeTok.asString
            if ptype = "gaussian" then
              match toks2 with
              | lTok :: cTok :: uTok :: toks3 =>
                match destringifyQ lTok with
                | Except.error e => Except.error e
                | Except.ok lower =>
                  match destringifyQ cTok with
                  | Except.error e => Except.error e
                  | Except.ok central =>
                    match destringifyQ uTok with
                    | Except.error e => Except.error e
                    | Except.ok upper =>
                      -- adjust range, but always stay within the hard
                      -- bounds supplied by the user
                      let rmin := if 0 < ns then
                          Max.max mn (central - ns * (central - lower)) else mn
                      let rmax := if 0 < ns then
                          Min.min mx (central + ns * (upper - central)) else mx
                      let pd : ParameterData :=
                        { name := name, min := rmin, max := rmax, prior := ptype }
                      let st2 := if nuis then
                          { st with nuisance_parameters := st.nuisance_parameters ++ [pd] }
                        else
                          { st with scan_parameters := st.scan_parameters ++ [pd] }
                      match st2.log_posterior.add
                          (LogPriorSpec.gauss name rmin rmax lower central upper) nuis with
                      | none => Except.error ("Error in assigning " ++ ptype
                          ++ " prior distribution to " ++ name ++ ". Perhaps " ++ name
                          ++ " appears twice in the list of parameters?")
                      | some lp2 => parseArgs now gas { st2 with log_posterior := lp2 } toks3
              | _ => Except.error "unexpected end of arguments"
            else if ptype = "flat" then
              if 0 < ns then
                Except.error "Cannot specify number of sigmas for flat prior"
              else
                let pd : ParameterData :=
                  { name := name, min := mn, max := mx, prior := ptype }
                let st2 := if nuis then
                    { st with nuisance_parameters := st.nuisance_parameters ++ [pd] }
                  else
                    { st with scan_parameters := st.scan_parameters ++ [pd] }
                match st2.log_posterior.add (LogPriorSpec.flat name mn mx) nuis with
                | none => Except.error ("Error in assigning " ++ ptype
                    ++ " prior distribution to " ++ name ++ ". Perhaps " ++ name
                    ++ " appears twice in the list of parameters?")
                | some lp2 => parseArgs now gas { st2 with log_posterior := lp2 } toks2
            else
              Except.error ("Unknown prior distribution: " ++ ptype)
        match destringifyQ numTok with
        | Except.error e => Except.error e
        | Except.ok number =>
          if kw1 = Tok.str "--prior" then
            -- case a
            match verifiedRange 0 10 number with
            | Except.error e => Except.error e
            | Except.ok ns =>
              if ns = 0 then Except.error "number of sigmas: number expected"
              else handlePrior (-dblMax) dblMax ns args3
          else
            -- case b), c)
            match destringifyQ kw1 with
            | Except.error e => Except.error e
            | Except.ok mx =>
              match args3 with
              | [] => Except.error "unexpected end of arguments"
              | kw2 :: args4 =>
                if kw2 = Tok.str "--prior" then
                  handlePrior number mx 0 args4
                else
                  match destringifyQ kw2 with
                  | Except.error e => Except.error e
                  | Except.ok nsv =>
                    match verifiedRange 0 10 nsv with
                    | Except.error e => Except.error e
                    | Except.ok ns =>
                      if ns = 0 then Except.error "number of sigmas: number expected"
                      else
                        match args4 with
                        | [] => Except.error "unexpected end of arguments"
                        | kw3 :: args5 =>
                          if kw3 = Tok.str "--prior" then
                            handlePrior number mx ns args5
                          else
                            Except.error ("Missing correct prior specification for " ++ name)
      | _ => Except.error "unexpected end of arguments"
    else if arg = Tok.str "--chains" then
      match args with
      | v :: rest =>
        match destringifyNat v with
        | Except.error e => Except.error e
        | Except.ok n =>
          parseArgs now gas { st with mcmc_config := { st.mcmc_config with number_of_chains := n } } rest
      | [] => Except.error "unexpected end of arguments"
    else if arg = Tok.str "--chunk-size" then
      match args with
      | v :: rest =>
        match destringifyNat v with
        | Except.error e => Except.error e
        | Except.ok n =>
          parseArgs now gas { st with mcmc_config := { st.mcmc_config with chunk_size := n } } rest
      | [] => Except.error "unexpected end of arguments"
    else if arg = Tok.str "--chunks" then
      match args with
      | v :: rest =>
        match destringifyNat v with
        | Except.error e => Except.error e
        | Except.ok n =>
          parseArgs now gas { st with mcmc_config := { st.mcmc_config with chunks := n } } rest
      | [] => Except.error "unexpected end of arguments"
    else if arg = Tok.str "--debug" then
      -- only changes the log level
      parseArgs now gas st args
    else if arg = Tok.str "--no-prerun" then
      parseArgs now gas { st with mcmc_config := { st.mcmc_config with need_prerun := false } } args
    else if arg = Tok.str "--output" then
      match args with
      | v :: rest =>
        parseArgs now gas { st with mcmc_config := { st.mcmc_config with output_file := v.asString } } rest
      | [] => Except.error "unexpected end of arguments"
    else if arg = Tok.str "--parallel" then
      -- verbatim from the source: the flag assigns false
      parseArgs now gas { st with mcmc_config := { st.mcmc_config with parallelize := false } } args
    else if arg = Tok.str "--use-pmc" then
      parseArgs now gas { st with use_pmc := true } args
    else if arg = Tok.str "--prerun-chains-per-partition" then
      match args with
      | v :: rest =>
        match destringifyNat v with
        | Except.error e => Except.error e
        | Except.ok n =>
          parseArgs now gas { st with mcmc_config := { st.mcmc_config with number_of_chains := n } } rest
      | [] => Except.error "unexpected end of arguments"
    else if arg = Tok.str "--prerun-max" then
      match args with
      | v :: rest =>
        match destringifyNat v with
        | Except.error e => Except.error e
        | Except.ok n =>
          parseArgs now gas { st with mcmc_config := { st.mcmc_config with prerun_iterations_max := n } } rest
      | [] => Except.error "unexpected end of arguments"
    else if arg = Tok.str "--prerun-min" then
      match args with
      | v :: rest =>
        match destringifyNat v with
        | Except.error e => Except.error e
        | Except.ok n =>
          parseArgs now gas { st with mcmc_config := { st.mcmc_config with prerun_iterations_min := n } } rest
      | [] => Except.error "unexpected end of arguments"
    else if arg = Tok.str "--prerun-only" then
      parseArgs now gas { st with mcmc_config := { st.mcmc_config with
        need_prerun := true, store_prerun := true, need_main_run := false } } args
    else if arg = Tok.str "--prerun-update" then
      match args with
      | v :: rest =>
        match destringifyNat v with
        | Except.error e => Except.error e
        | Except.ok n =>
          parseArgs now gas { st with mcmc_config := { st.mcmc_config with prerun_iterations_update := n } } rest
      | [] => Except.error "unexpected end of arguments"
    else if arg = Tok.str "--proposal" then
      match args with
      | p :: rest =>
        let st1 := { st with mcmc_config := { st.mcmc_config with proposal := p.asString } }
        if p.asString = "MultivariateStudentT" then
          match rest with
          | d :: rest2 =>
            match destringifyQ d with
            | Except.error e => Except.error e
            | Except.ok dof =>
              if dof ≤ 0 then
                Except.error "No (or non-positive) degree of freedom for MultivariateStudentT specified"
              else
                parseArgs now gas { st1 with mcmc_config :=
                  { st1.mcmc_config with student_t_degrees_of_freedom := dof } } rest2
          | [] => Except.error "unexpected end of arguments"
        else
          parseArgs now gas st1 rest
      | [] => Except.error "unexpected end of arguments"
    else if arg = Tok.str "--seed" then
      match args with
      | v :: rest =>
        if v = Tok.str "time" then
          parseArgs now gas { st with mcmc_config := { st.mcmc_config with seed := now } } rest
        else
          match destringifyNat v with
          | Except.error e => Except.error e
          | Except.ok n =>
            parseArgs now gas { st with mcmc_config := { st.mcmc_config with seed := n } } rest
      | [] => Except.error "unexpected end of arguments"
    else if arg = Tok.str "--scale-reduction" then
      match args with
      | v :: rest =>
        match destringifyQ v with
        | Except.error e => Except.error e
        | Except.ok q => parseArgs now gas { st with scale_reduction := q } rest
      | [] => Except.error "unexpected end of arguments"
    else if arg = Tok.str "--store-prerun" then
      parseArgs now gas { st with mcmc_config := { st.mcmc_config with store_prerun := true } } args
    else
      Except.error ("Unknown command line argument: " ++ arg.asString)

/-- CommandLine::parse over a token list.  An Except.error value models a
thrown DoUsage (or destringify) exception: main catches it, prints the usage
text and exits before a sampler is ever constructed, so a parse error means
that setup fails before any sampling begins. -/
def parse (now : ℕ) (st : CmdState) (toks : List Tok) : Except String CmdState :=
  parseArgs now toks st toks

/-- An arbitrary concrete stand-in for Config::Quick, used by witnesses. -/
def quickDefault : MCMCConfig :=
  { number_of_chains := 0, chunk_size := 0, chunks := 10
  , need_prerun := false, need_main_run := true, store_prerun := false
  , parallelize := false, use_strict_rvalue_definition := false
  , prerun_iterations_min := 0, prerun_iterations_max := 0, prerun_iterations_update := 0
  , proposal := "Gaussian", student_t_degrees_of_freedom := 0, seed := 0, output_file := "" }

/- ------------------------------------------------------------------ -/
/- B-meson light-cone distribution amplitudes (class BMesonLCDAs).

   The double-precision math library routines are modelled as unspecified
   rational maps collected in a MathEnv record: exp and log stand for
   std::exp and std::log, expint_Ei for gsl_sf_expint_Ei, and gamma_inc for
   gsl_sf_gamma_inc.  No claim below depends on their values. -/

structure MathEnv where
  exp : ℚ → ℚ
  log : ℚ → ℚ
  expint_Ei : ℚ → ℚ
  gamma_inc : ℚ → ℚ → ℚ

/-- The math environment with every routine the identity, used by witnesses. -/
def envId : MathEnv :=
  { exp := fun q => q, log := fun q => q, expint_Ei := fun q => q
  , gamma_inc := fun _ q => q }

/-- The Euler-Mascheroni constant as written in the source. -/
def gamma_E : ℚ := 0.57721566490153286

/-- The parameters held by Implementation of BMesonLCDAs.  The option and
parameter-name plumbing (opt_q, the qualified-name prefixes) only selects
which named parameter feeds each field and is not modelled. -/
structure BMesonLCDAs where
  lambda_B_inv : ℚ
  lambda_E2 : ℚ
  lambda_H2 : ℚ
  switch_gminus : ℚ

/-- The inverse moment of phi_plus. -/
def BMesonLCDAs.lambda_B (B : BMesonLCDAs) : ℚ := 1 / B.lambda_B_inv

/-- The hard-coded member constant: const float debug_level_B = 1.0 with the
source comment that at most 1.0 only phi_plus is active. -/
def debug_level_B : ℚ := 1

def BMesonLCDAs.phi_plus (B : BMesonLCDAs) (env : MathEnv) (omega : ℚ) : ℚ :=
  let omega_0 := B.lambda_B
  omega / (omega_0 * omega_0) * env.exp (-omega / omega_0)

def BMesonLCDAs.phi_minus (B : BMesonLCDAs) (env : MathEnv) (omega : ℚ) : ℚ :=
  if debug_level_B ≤ 1 then 0 else
  let omega_0 := B.lambda_B
  let limitWW := 1 / omega_0 * env.exp (-omega / omega_0)
  let nonWW := -(B.lambda_E2 - B.lambda_H2) / (18 * omega_0 ^ 5) *
      (2 * omega_0 * omega_0 - 4 * omega_0 * omega + omega * omega) *
      env.exp (-omega / omega_0)
  limitWW + nonWW

def BMesonLCDAs.phi_bar (B : BMesonLCDAs) (env : MathEnv) (omega : ℚ) : ℚ :=
  if debug_level_B ≤ 1 then 0 else
  let omega_0 := B.lambda_B
  let limitWW := -omega / omega_0 * env.exp (-omega / omega_0)
  let nonWW := (B.lambda_E2 - B.lambda_H2) / (18 * omega_0 ^ 4) *
      (2 * omega_0 - omega) * omega * env.exp (-omega / omega_0)
  limitWW + nonWW

def BMesonLCDAs.phi_bar_d1 (B : BMesonLCDAs) (env : MathEnv) (omega : ℚ) : ℚ :=
  if debug_level_B ≤ 1 then 0 else
  B.phi_plus env omega - B.phi_minus env omega

def BMesonLCDAs.g_minusWW (B : BMesonLCDAs) (env : MathEnv) (omega : ℚ) : ℚ :=
  if debug_level_B ≤ 1 then 0 else
  if omega < 1e-5 then 0 else
  -- Wandzura-Wilcek limit of g_minus
  let omega_0 := B.lambda_B
  let e := env.exp (-omega / omega_0)
  B.switch_gminus * (3 / 4) * omega * e

def BMesonLCDAs.g_minusWW_d1 (B : BMesonLCDAs) (env : MathEnv) (omega : ℚ) : ℚ :=
  if debug_level_B ≤ 1 then 0 else
  let omega_0 := B.lambda_B
  let e := env.exp (-omega / omega_0)
  B.switch_gminus * (-1) * (3 / (4 * omega_0)) * (omega - omega_0) * e

def BMesonLCDAs.g_minusWW_d2 (B : BMesonLCDAs) (env : MathEnv) (omega : ℚ) : ℚ :=
  if debug_level_B ≤ 1 then 0 else
  let omega_0 := B.lambda_B
  let e := env.exp (-omega / omega_0)
  B.switch_gminus * (3 / (4 * omega_0 * omega_0)) * (omega - 2 * omega_0) * e

def BMesonLCDAs.g_plus (B : BMesonLCDAs) (env : MathEnv) (omega : ℚ) : ℚ :=
  if debug_level_B ≤ 1 then 0 else
  if omega < 1e-5 then 0 else
  let omega_0 := B.lambda_B
  let Ei := env.expint_Ei (-omega / omega_0)
  let e := env.exp (-omega / omega_0)
  let termA := -B.lambda_E2 / (6 * omega_0 ^ 2) *
      ((omega - 2 * omega_0) * Ei
        + (omega + 2 * omega_0) * e * (env.log (omega / omega_0) + gamma_E)
        - 2 * omega * e)
  let termB := e / (2 * omega_0) * omega ^ 2 *
      (1 - (B.lambda_E2 - B.lambda_H2) / (36 * omega_0 ^ 2))
  termA + termB

def BMesonLCDAs.g_plus_d1 (B : BMesonLCDAs) (env : MathEnv) (omega : ℚ) : ℚ :=
  if debug_level_B ≤ 1 then 0 else
  if omega < 1e-5 then 0 else
  let omega_0 := B.lambda_B
  let Ei := env.expint_Ei (-omega / omega_0)
  let e := env.exp (-omega / omega_0)
  let termA := B.lambda_E2 / (6 * omega_0 ^ 3) *
      (-omega_0 * Ei
        + (omega + omega_0) * e * (env.log (omega / omega_0) + gamma_E)
        - 2 * omega * e)
  let termB := e / (2 * omega_0 ^ 2) * (2 * omega_0 - omega) * omega *
      (1 - (B.lambda_E2 - B.lambda_H2) / (36 * omega_0 ^ 2))
  termA + termB

def BMesonLCDAs.g_plus_d2 (B : BMesonLCDAs) (env : MathEnv) (omega : ℚ) : ℚ :=
  if debug_level_B ≤ 1 then 0 else
  let omega_0 := B.lambda_B
  let e := env.exp (-omega / omega_0)
  let termA := B.lambda_E2 / (6 * omega_0 ^ 4) * e *
      (-omega_0 - omega * (env.log (omega / omega_0) + gamma_E - 2))
  let termB := e / (2 * omega_0 ^ 3) *
      (2 * omega_0 ^ 2 - 4 * omega_0 * omega + omega ^ 2) *
      (1 - (B.lambda_E2 - B.lambda_H2) / (36 * omega_0 ^ 2))
  termA + termB

def BMesonLCDAs.g_bar (B : BMesonLCDAs) (env : MathEnv) (omega : ℚ) : ℚ :=
  if debug_level_B ≤ 1 then 0 else
  if omega < 1e-5 then 0 else
  -- including the WW-limit of g_minus
  let omega_0 := B.lambda_B
  let Ei := env.expint_Ei (-omega / omega_0)
  let e := env.exp (-omega / omega_0)
  let exp_plus := env.exp (omega / omega_0)
  -- integral of g_plus
  let termA := -B.lambda_E2 / (12 * omega_0 ^ 2) *
      ((omega ^ 2 - 4 * omega_0 * omega + 6 * omega_0 ^ 2) * Ei
        - omega_0 * e * (env.log (omega / omega_0) + gamma_E) * 2 * (3 * omega_0 + omega)
        - omega_0 * e * (omega_0 - 5 * omega))
  let termB := -e / 2 * (2 * omega_0 ^ 2 + 2 * omega_0 * omega + omega ^ 2) *
      (1 - (B.lambda_E2 - B.lambda_H2) / (36 * omega_0 ^ 2))
  let int_glus := (termA - B.lambda_E2 / 12)
      + (termB + omega_0 ^ 2 - (B.lambda_E2 - B.lambda_H2) / 36)
  -- integral of g_minusWW
  let int_gminusWW := (3 / 4) * e * omega_0 * (exp_plus * omega_0 - omega - omega_0)
  int_glus - B.switch_gminus * int_gminusWW

def BMesonLCDAs.g_bar_d1 (B : BMesonLCDAs) (env : MathEnv) (omega : ℚ) : ℚ :=
  if debug_level_B ≤ 1 then 0 else
  B.g_plus env omega - B.g_minusWW env omega

def BMesonLCDAs.g_bar_d2 (B : BMesonLCDAs) (env : MathEnv) (omega : ℚ) : ℚ :=
  if debug_level_B ≤ 1 then 0 else
  B.g_plus_d1 env omega - B.g_minusWW_d1 env omega

def BMesonLCDAs.g_bar_d3 (B : BMesonLCDAs) (env : MathEnv) (omega : ℚ) : ℚ :=
  if debug_level_B ≤ 1 then 0 else
  B.g_plus_d2 env omega - B.g_minusWW_d2 env omega

def BMesonLCDAs.phi_3 (B : BMesonLCDAs) (env : MathEnv) (omega_1 omega_2 : ℚ) : ℚ :=
  if debug_level_B ≤ 1 then 0 else
  let omega_0 := B.lambda_B
  (B.lambda_E2 - B.lambda_H2) / (6 * omega_0 ^ 5) * omega_1 * omega_2 ^ 2 *
    env.exp (-(omega_1 + omega_2) / omega_0)

def BMesonLCDAs.phi_4 (B : BMesonLCDAs) (env : MathEnv) (omega_1 omega_2 : ℚ) : ℚ :=
  if debug_level_B ≤ 1 then 0 else
  let omega_0 := B.lambda_B
  (B.lambda_E2 + B.lambda_H2) / (6 * omega_0 ^ 4) * omega_2 ^ 2 *
    env.exp (-(omega_1 + omega_2) / omega_0)

def BMesonLCDAs.phi_bar_3 (B : BMesonLCDAs) (env : MathEnv) (omega_1 omega_2 : ℚ) : ℚ :=
  if debug_level_B ≤ 1 then 0 else
  let omega_0 := B.lambda_B
  let termA := -(B.lambda_E2 - B.lambda_H2) / (6 * omega_0 ^ 4) * (omega_0 + omega_1) *
      omega_2 * omega_2 * env.exp (-(omega_1 + omega_2) / omega_0)
  let termB := (B.lambda_E2 - B.lambda_H2) / (6 * omega_0 ^ 3) * omega_2 * omega_2 *
      env.exp (-omega_2 / omega_0)
  termA + termB

def BMesonLCDAs.phi_bar_4 (B : BMesonLCDAs) (env : MathEnv) (omega_1 omega_2 : ℚ) : ℚ :=
  if debug_level_B ≤ 1 then 0 else
  let omega_0 := B.lambda_B
  let termA := -(B.lambda_E2 + B.lambda_H2) / (6 * omega_0 ^ 3) * omega_2 * omega_2 *
      env.exp (-(omega_1 + omega_2) / omega_0)
  let termB := (B.lambda_E2 + B.lambda_H2) / (6 * omega_0 ^ 3) * omega_2 * omega_2 *
      env.exp (-omega_2 / omega_0)
  termA + termB

def BMesonLCDAs.phi_bar2_3 (B : BMesonLCDAs) (env : MathEnv) (omega_1 omega_2 : ℚ) : ℚ :=
  if debug_level_B ≤ 1 then 0 else
  let omega_0 := B.lambda_B
  let termA := -(B.lambda_E2 - B.lambda_H2) / (6 * omega_0 ^ 4) * omega_1 *
      (2 * omega_0 * omega_0 + 2 * omega_0 * omega_2 + omega_2 * omega_2) *
      env.exp (-(omega_1 + omega_2) / omega_0)
  let termB := (B.lambda_E2 - B.lambda_H2) / (3 * omega_0 ^ 2) * omega_1 *
      env.exp (-omega_1 / omega_0)
  termA + termB

def BMesonLCDAs.phi_bar2_4 (B : BMesonLCDAs) (env : MathEnv) (omega_1 omega_2 : ℚ) : ℚ :=
  if debug_level_B ≤ 1 then 0 else
  let omega_0 := B.lambda_B
  let termA := -(B.lambda_E2 + B.lambda_H2) / (6 * omega_0 ^ 3) *
      (2 * omega_0 * omega_0 + 2 * omega_0 * omega_2 + omega_2 * omega_2) *
      env.exp (-(omega_1 + omega_2) / omega_0)
  let termB := (B.lambda_E2 + B.lambda_H2) / (3 * omega_0) * env.exp (-omega_1 / omega_0)
  termA + termB

def BMesonLCDAs.phi_bar_bar_3 (B : BMesonLCDAs) (env : MathEnv) (omega_1 omega_2 : ℚ) : ℚ :=
  if debug_level_B ≤ 1 then 0 else
  let omega_0 := B.lambda_B
  let termA := (B.lambda_E2 - B.lambda_H2) / (6 * omega_0 ^ 3) * (omega_0 + omega_1) *
      (2 * omega_0 * omega_0 + 2 * omega_0 * omega_2 + omega_2 * omega_2) *
      env.exp (-(omega_1 + omega_2) / omega_0)
  let termB := -(B.lambda_E2 - B.lambda_H2) / (3 * omega_0) * (omega_0 + omega_1) *
      env.exp (-omega_1 / omega_0)
  let termC := -(B.lambda_E2 - B.lambda_H2) / (6 * omega_0 ^ 2) *
      (2 * omega_0 * omega_0 + 2 * omega_0 * omega_2 + omega_2 * omega_2) *
      env.exp (-omega_2 / omega_0)
  let termD := -1 / 3 * (-B.lambda_E2 + B.lambda_H2)
  termA + termB + termC + termD

def BMesonLCDAs.phi_bar_bar_4 (B : BMesonLCDAs) (env : MathEnv) (omega_1 omega_2 : ℚ) : ℚ :=
  if debug_level_B ≤ 1 then 0 else
  let omega_0 := B.lambda_B
  let termA := (B.lambda_E2 + B.lambda_H2) / (6 * omega_0 ^ 2) *
      (2 * omega_0 * omega_0 + 2 * omega_0 * omega_2 + omega_2 * omega_2) *
      env.exp (-(omega_1 + omega_2) / omega_0)
  let termB := -1 / 3 * (B.lambda_E2 + B.lambda_H2) * env.exp (-omega_1 / omega_0)
  let termC := -(B.lambda_E2 + B.lambda_H2) / (6 * omega_0 ^ 2) *
      (2 * omega_0 * omega_0 + 2 * omega_0 * omega_2 + omega_2 * omega_2) *
      env.exp (-omega_2 / omega_0)
  let termD := -1 / 3 * (-B.lambda_E2 - B.lambda_H2)
  termA + termB + termC + termD

def BMesonLCDAs.psi_bar_4 (B : BMesonLCDAs) (env : MathEnv) (omega_1 omega_2 : ℚ) : ℚ :=
  if debug_level_B ≤ 1 then 0 else
  let omega_0 := B.lambda_B
  let termA := -B.lambda_E2 / (3 * omega_0 ^ 3) * (omega_0 + omega_1) * omega_2 *
      env.exp (-(omega_1 + omega_2) / omega_0)
  let termB := B.lambda_E2 / (3 * omega_0 ^ 2) * omega_2 * env.exp (-omega_2 / omega_0)
  termA + termB

def BMesonLCDAs.psi_bar_bar_4 (B : BMesonLCDAs) (env : MathEnv) (omega_1 omega_2 : ℚ) : ℚ :=
  if debug_level_B ≤ 1 then 0 else
  let omega_0 := B.lambda_B
  let termA := -B.lambda_E2 / (3 * omega_0 ^ 2) *
      ((-1 + env.exp (omega_1 / omega_0)) * omega_0 - omega_1) * (omega_0 + omega_2) *
      env.exp (-(omega_1 + omega_2) / omega_0)
  let termB := B.lambda_E2 / (3 * omega_0) *
      ((-1 + env.exp (omega_1 / omega_0)) * omega_0 - omega_1) *
      env.exp (-omega_1 / omega_0)
  termA + termB

def BMesonLCDAs.chi_bar_4 (B : BMesonLCDAs) (env : MathEnv) (omega_1 omega_2 : ℚ) : ℚ :=
  if debug_level_B ≤ 1 then 0 else
  let omega_0 := B.lambda_B
  let termA := -B.lambda_H2 / (3 * omega_0 ^ 3) * (omega_0 + omega_1) * omega_2 *
      env.exp (-(omega_1 + omega_2) / omega_0)
  let termB := B.lambda_H2 / (3 * omega_0 ^ 2) * omega_2 * env.exp (-omega_2 / omega_0)
  termA + termB

def BMesonLCDAs.chi_bar_bar_4 (B : BMesonLCDAs) (env : MathEnv) (omega_1 omega_2 : ℚ) : ℚ :=
  if debug_level_B ≤ 1 then 0 else
  let omega_0 := B.lambda_B
  let termA := -B.lambda_H2 / (3 * omega_0 ^ 2) *
      ((-1 + env.exp (omega_1 / omega_0)) * omega_0 - omega_1) * (omega_0 + omega_2) *
      env.exp (-(omega_1 + omega_2) / omega_0)
  let termB := B.lambda_H2 / (3 * omega_0) *
      ((-1 + env.exp (omega_1 / omega_0)) * omega_0 - omega_1) *
      env.exp (-omega_1 / omega_0)
  termA + termB

def BMesonLCDAs.psi_A (B : BMesonLCDAs) (env : MathEnv) (omega xi : ℚ) : ℚ :=
  if debug_level_B ≤ 1 then 0 else
  let omega_0 := B.lambda_B
  let omega_0_2 := omega_0 * omega_0
  let omega_0_4 := omega_0_2 * omega_0_2
  let lambda_E_2 := 3 / 2 * omega_0_2
  lambda_E_2 / (6 * omega_0_4) * xi * xi * env.exp (-(omega + xi) / omega_0)

def BMesonLCDAs.psi_V (B : BMesonLCDAs) (env : MathEnv) (omega xi : ℚ) : ℚ :=
  if debug_level_B ≤ 1 then 0 else
  B.psi_A env omega xi

def BMesonLCDAs.X_A (B : BMesonLCDAs) (env : MathEnv) (omega xi : ℚ) : ℚ :=
  if debug_level_B ≤ 1 then 0 else
  let omega_0 := B.lambda_B
  let omega_0_2 := omega_0 * omega_0
  let omega_0_4 := omega_0_2 * omega_0_2
  let lambda_E_2 := 3 / 2 * omega_0_2
  lambda_E_2 / (6 * omega_0_4) * xi * (2 * omega - xi) * env.exp (-(omega + xi) / omega_0)

def BMesonLCDAs.Y_A (B : BMesonLCDAs) (env : MathEnv) (omega xi : ℚ) : ℚ :=
  if debug_level_B ≤ 1 then 0 else
  let omega_0 := B.lambda_B
  let omega_0_2 := omega_0 * omega_0
  let omega_0_4 := omega_0_2 * omega_0_2
  let lambda_E_2 := 3 / 2 * omega_0_2
  (-lambda_E_2) / (24 * omega_0_4) * xi * (7 * omega_0 - 13 * omega + 3 * xi) *
    env.exp (-(omega + xi) / omega_0)

def BMesonLCDAs.Xbar_A (B : BMesonLCDAs) (env : MathEnv) (omega xi : ℚ) : ℚ :=
  if debug_level_B ≤ 1 then 0 else
  let omega_0 := B.lambda_B
  let omega_0_2 := omega_0 * omega_0
  let omega_0_3 := omega_0_2 * omega_0
  let lambda_E_2 := 3 / 2 * omega_0_2
  lambda_E_2 / (6 * omega_0_3) * xi * env.exp (-(xi + omega) / omega_0) *
    (xi - 2 * (omega + omega_0) + env.exp (omega / omega_0) * (2 * omega_0 - xi))

def BMesonLCDAs.Ybar_A (B : BMesonLCDAs) (env : MathEnv) (omega xi : ℚ) : ℚ :=
  if debug_level_B ≤ 1 then 0 else
  let omega_0 := B.lambda_B
  let omega_0_2 := omega_0 * omega_0
  let omega_0_3 := omega_0_2 * omega_0
  let lambda_E_2 := 3 / 2 * omega_0_2
  (-lambda_E_2) / (24 * omega_0_3) * xi * env.exp (-(xi + omega) / omega_0) *
    (-3 * xi + 13 * omega + 6 * omega_0 + 3 * env.exp (omega / omega_0) * (xi - 2 * omega_0))

/-- The public accessor BMesonLCDAs::inverse_lambda_plus, which has no debug
guard: it returns 1.0 divided by the lambda_B of the implementation. -/
def BMesonLCDAs.inverse_lambda_plus (B : BMesonLCDAs) : ℚ := 1 / B.lambda_B

/- ------------------------------------------------------------------ -/
/- B_c-meson light-cone distribution amplitudes (class BcMesonLCDAs). -/

/-- The parameters held by Implementation of BcMesonLCDAs. -/
structure BcMesonLCDAs where
  N0 : ℚ
  omega_0 : ℚ
  lambda_E2 : ℚ
  lambda_H2 : ℚ
  switch_gminus : ℚ

/-- Normalisation parameter. -/
def BcMesonLCDAs.N1 (B : BcMesonLCDAs) : ℚ := 1 - B.N0

def BcMesonLCDAs.phi_plus (B : BcMesonLCDAs) (env : MathEnv) (omega : ℚ) : ℚ :=
  let omega_0 := B.omega_0
  omega / omega_0 ^ 2 * (B.N0 + B.N1 * omega / 2 / omega_0) * env.exp (-omega / omega_0)

def BcMesonLCDAs.phi_minus (B : BcMesonLCDAs) (env : MathEnv) (omega : ℚ) : ℚ :=
  let omega_0 := B.omega_0
  let m : ℚ := 1.3
  env.exp (-omega / omega_0) / omega_0 *
      (B.N0 * (m / omega_0 + 1)
        + 0.5 * B.N1 * (omega / omega_0 + 1) *
          ((m * (omega - omega_0)) / (omega_0 * (omega + omega_0)) + 1))
    - B.N0 * m / omega_0 ^ 2 * env.gamma_inc 0 (omega / omega_0)

def BcMesonLCDAs.phi_bar (B : BcMesonLCDAs) (env : MathEnv) (omega : ℚ) : ℚ :=
  let omega_0 := B.omega_0
  let m : ℚ := 1.3
  B.N0 * omega / omega_0 ^ 2 *
      (m * env.gamma_inc 0 (omega / omega_0) - omega_0 * env.exp (-omega / omega_0))
    - B.N1 * omega / (2 * omega_0 ^ 2) * (env.exp (-omega / omega_0) * (omega + omega_0 - m))

def BcMesonLCDAs.phi_bar_d1 (B : BcMesonLCDAs) (env : MathEnv) (omega : ℚ) : ℚ :=
  let omega_0 := B.omega_0
  let m : ℚ := 1.3
  B.N0 / omega_0 *
      (env.exp (-omega / omega_0) * ((omega - m) / omega_0 - 1)
        + m / omega_0 * env.gamma_inc 0 (omega / omega_0))
    + B.N1 / 2 / omega_0 * env.exp (-omega / omega_0) *
      (m / omega_0 * (1 - omega / omega_0)
        - omega / omega_0 * (1 - omega / omega_0)
        - 1)

def BcMesonLCDAs.g_minusWW (B : BcMesonLCDAs) (env : MathEnv) (omega : ℚ) : ℚ := 0

def BcMesonLCDAs.g_minusWW_d1 (B : BcMesonLCDAs) (env : MathEnv) (omega : ℚ) : ℚ := 0

def BcMesonLCDAs.g_minusWW_d2 (B : BcMesonLCDAs) (env : MathEnv) (omega : ℚ) : ℚ := 0

def BcMesonLCDAs.g_plus (B : BcMesonLCDAs) (env : MathEnv) (omega : ℚ) : ℚ := 0

def BcMesonLCDAs.g_plus_d1 (B : BcMesonLCDAs) (env : MathEnv) (omega : ℚ) : ℚ := 0

def BcMesonLCDAs.g_plus_d2 (B : BcMesonLCDAs) (env : MathEnv) (omega : ℚ) : ℚ := 0

def BcMesonLCDAs.g_bar (B : BcMesonLCDAs) (env : MathEnv) (omega : ℚ) : ℚ := 0

def BcMesonLCDAs.g_bar_d1 (B : BcMesonLCDAs) (env : MathEnv) (omega : ℚ) : ℚ := 0

def BcMesonLCDAs.g_bar_d2 (B : BcMesonLCDAs) (env : MathEnv) (omega : ℚ) : ℚ := 0

def BcMesonLCDAs.g_bar_d3 (B : BcMesonLCDAs) (env : MathEnv) (omega : ℚ) : ℚ := 0

def BcMesonLCDAs.phi_3 (B : BcMesonLCDAs) (env : MathEnv) (omega_1 omega_2 : ℚ) : ℚ := 0

def BcMesonLCDAs.phi_4 (B : BcMesonLCDAs) (env : MathEnv) (omega_1 omega_2 : ℚ) : ℚ := 0

def BcMesonLCDAs.phi_bar_3 (B : BcMesonLCDAs) (env : MathEnv) (omega_1 omega_2 : ℚ) : ℚ := 0

def BcMesonLCDAs.phi_bar_4 (B : BcMesonLCDAs) (env : MathEnv) (omega_1 omega_2 : ℚ) : ℚ := 0

def BcMesonLCDAs.phi_bar2_3 (B : BcMesonLCDAs) (env : MathEnv) (omega_1 omega_2 : ℚ) : ℚ := 0

def BcMesonLCDAs.phi_bar2_4 (B : BcMesonLCDAs) (env : MathEnv) (omega_1 omega_2 : ℚ) : ℚ := 0

def BcMesonLCDAs.phi_bar_bar_3 (B : BcMesonLCDAs) (env : MathEnv) (omega_1 omega_2 : ℚ) : ℚ := 0

def BcMesonLCDAs.phi_bar_bar_4 (B : BcMesonLCDAs) (env : MathEnv) (omega_1 omega_2 : ℚ) : ℚ := 0

def BcMesonLCDAs.psi_bar_4 (B : BcMesonLCDAs) (env : MathEnv) (omega_1 omega_2 : ℚ) : ℚ := 0

def BcMesonLCDAs.psi_bar_bar_4 (B : BcMesonLCDAs) (env : MathEnv) (omega_1 omega_2 : ℚ) : ℚ := 0

def BcMesonLCDAs.chi_bar_4 (B : BcMesonLCDAs) (env : MathEnv) (omega_1 omega_2 : ℚ) : ℚ := 0

def BcMesonLCDAs.chi_bar_bar_4 (B : BcMesonLCDAs) (env : MathEnv) (omega_1 omega_2 : ℚ) : ℚ := 0

def BcMesonLCDAs.psi_A (B : BcMesonLCDAs) (env : MathEnv) (omega xi : ℚ) : ℚ := 0

def BcMesonLCDAs.psi_V (B : BcMesonLCDAs) (env : MathEnv) (omega xi : ℚ) : ℚ := 0

def BcMesonLCDAs.X_A (B : BcMesonLCDAs) (env : MathEnv) (omega xi : ℚ) : ℚ := 0

def BcMesonLCDAs.Y_A (B : BcMesonLCDAs) (env : MathEnv) (omega xi : ℚ) : ℚ := 0

def BcMesonLCDAs.Xbar_A (B : BcMesonLCDAs) (env : MathEnv) (omega xi : ℚ) : ℚ := 0

def BcMesonLCDAs.Ybar_A (B : BcMesonLCDAs) (env : MathEnv) (omega xi : ℚ) : ℚ := 0

/-- The public accessor BcMesonLCDAs::inverse_lambda_plus: the source returns
the literal 0.0 unconditionally. -/
def BcMesonLCDAs.inverse_lambda_plus (B : BcMesonLCDAs) : ℚ := 0

/- ------------------------------------------------------------------ -/
/- Gelman-Rubin convergence diagnostic.  The implementation file of the
   chain-group diagnostics is not among the reviewed sources, so the
   statistic is modelled from the specification text. -/

/-- Arithmetic mean of a list of rationals (empty list gives 0). -/
def qMean (xs : List ℚ) : ℚ := xs.sum / xs.length

/-- Population variance of a list of rationals (empty list gives 0). -/
def qVar (xs : List ℚ) : ℚ := (xs.map (fun x => (x - qMean xs) ^ 2)).sum / xs.length

/-- Modelled from the spec: compute_r_value computes, per scanned parameter,
the Gelman-Rubin statistic R = sqrt(((n-1)/n) + (B/W)/n) with n the block
length (the per-chain sample count), B the between-chain variance of the
chain means and W the mean within-chain variance.  The input is the list of
chains, each chain the list of its per-step values for one parameter. -/
noncomputable def compute_r_value (chains : List (List ℚ)) : ℝ :=
  let n : ℕ := (chains.headD []).length
  let B : ℚ := qVar (chains.map qMean)
  let W : ℚ := qMean (chains.map qVar)
  Real.sqrt (((n : ℝ) - 1) / n + ((B : ℝ) / W) / n)

/- ------------------------------------------------------------------ -/
/- The Metropolis-Hastings accept/reject rule.  The Markov chain
   implementation file is not among the reviewed sources, so the rule is
   modelled from the specification text (sections 4.1, 7 and 8). -/

/-- A proposal density, reduced to what the acceptance rule reads: its log
density log q(y given x) of proposing y from the current point x. -/
structure ProposalDensity where
  log_density : ℚ → ℚ → ℚ

/-- A proposal density is symmetric when q(y given x) = q(x given y). -/
def ProposalDensity.IsSymmetric (p : ProposalDensity) : Prop :=
  ∀ x y, p.log_density x y = p.log_density y x

/-- Modelled from the spec: the Hastings correction term,
log q(current given candidate) minus log q(candidate given current). -/
def hastings_correction (p : ProposalDensity) (cur cand : ℚ) : ℚ :=
  p.log_density cand cur - p.log_density cur cand

/-- Modelled from the spec: the acceptance probability applied by
accept_or_reject, min(1, exp(log_posterior_candidate - log_posterior_current
+ hastings_correction)). -/
def acceptance_probability (env : MathEnv) (p : ProposalDensity)
    (cur cand lp_cur lp_cand : ℚ) : ℚ :=
  min 1 (env.exp (lp_cand - lp_cur + hastings_correction p cur cand))

/-- The state of a single Markov chain: current point, current log
posterior, acceptance bookkeeping and the history buffer. -/
structure MarkovChainState where
  current_point : ℚ
  current_log_posterior : ℚ
  accepted : ℕ
  rejected : ℕ
  iterations : ℕ
  history : List (ℚ × ℚ)
deriving DecidableEq

/-- Modelled from the spec: accept_or_reject for one proposed candidate.
The log-posterior evaluation result is an Option: none models a domain
error raised by the evaluator.  A domain error is treated as log-posterior
minus infinity, whose acceptance probability min(1, exp(-infinity)) is
zero, so the proposal is rejected; no exception escapes (the function is
total).  On rejection the current point is re-recorded into the history, on
acceptance the chain advances to the candidate; both branches bump the
iteration counter and the respective acceptance counter. -/
def accept_or_reject (env : MathEnv) (u : ℚ) (cand : ℚ) (lp_cand : Option ℚ)
    (st : MarkovChainState) : MarkovChainState :=
  match lp_cand with
  | none =>
      { st with rejected := st.rejected + 1
              , iterations := st.iterations + 1
              , history := st.history ++ [(st.current_point, st.current_log_posterior)] }
  | some lp =>
      if u ≤ min 1 (env.exp (lp - st.current_log_posterior)) then
        { current_point := cand
        , current_log_posterior := lp
        , accepted := st.accepted + 1
        , rejected := st.rejected
        , iterations := st.iterations + 1
        , history := st.history ++ [(cand, lp)] }
      else
        { st with rejected := st.rejected + 1
                , iterations := st.iterations + 1
                , history := st.history ++ [(st.current_point, st.current_log_posterior)] }

/-- A run over a prepared list of proposals, each a triple of candidate
point, log-posterior evaluation result and uniform draw. -/
def chain_run (env : MathEnv) (st : MarkovChainState)
    (props : List (ℚ × Option ℚ × ℚ)) : MarkovChainState :=
  props.foldl (fun s pc => accept_or_reject env pc.2.2 pc.1 pc.2.1 s) st

/- ------------------------------------------------------------------ -/
/- The seeded sampling loop.  Modelled from the spec: sampling draws all of
   its randomness from one generator seeded by the configured seed (gsl
   mt19937 in the source tree; here a minimal multiplicative congruential
   generator, since the claims only use that the stream is a pure function
   of the seed). -/

/-- Modelled from the spec: one step of the seeded random source. -/
def lcg_next (s : ℕ) : ℕ := (16807 * s + 12345) % 2147483647

/-- A uniform variate in [0, 1) read off the generator state. -/
def uniform01 (s : ℕ) : ℚ := ((s % 2147483647 : ℕ) : ℚ) / 2147483647

/-- The chain configuration of one sampling run, reduced to the fields the
loop reads. -/
structure SamplerRunConfig where
  iterations : ℕ
  proposal_scale : ℚ
  start_point : ℚ
deriving DecidableEq

/-- Modelled from the spec: the iteration loop of one chain.  Each
iteration draws the candidate offset and the acceptance variate from the
seeded generator and applies accept_or_reject; the generator state is
threaded through. -/
def mcmc_loop (env : MathEnv) (log_post : ℚ → Option ℚ) (scale : ℚ) :
    ℕ → ℕ → MarkovChainState → MarkovChainState × ℕ
  | 0, s, st => (st, s)
  | n + 1, s, st =>
    let s1 := lcg_next s
    let cand := st.current_point + scale * (2 * uniform01 s1 - 1)
    let s2 := lcg_next s1
    let u := uniform01 s2
    mcmc_loop env log_post scale n s2 (accept_or_reject env u cand (log_post cand) st)

/-- Modelled from the spec: one full sampling run of a chain configuration
from a seed; the produced sample sequence is the chain history. -/
def mcmc_sample_run (env : MathEnv) (log_post : ℚ → Option ℚ)
    (cfg : SamplerRunConfig) (seed : ℕ) : List (ℚ × ℚ) :=
  let st0 : MarkovChainState :=
    { current_point := cfg.start_point
    , current_log_posterior := (log_post cfg.start_point).getD 0
    , accepted := 0, rejected := 0, iterations := 0, history := [] }
  (mcmc_loop env log_post cfg.proposal_scale cfg.iterations seed st0).1.history

/- ------------------------------------------------------------------ -/
/- Chunked, resumable storage.  Modelled from the spec: a main run produces
   fixed-size sample chunks by iterating a chunk-producing step; storage
   keeps each complete chunk together with the chain state at its end (the
   checkpoint); on resume, the last complete chunk determines the restart
   state and any partial chunk is discarded and re-generated. -/

/-- The chunk with index i of an uninterrupted run: iterate the
chunk-producing step from the initial state. -/
def nth_chunk {σ α : Type} (f : σ → List α × σ) : σ → ℕ → List α
  | s, 0 => (f s).1
  | s, n + 1 => nth_chunk f (f s).2 n

/-- The chain state after a number of complete chunks. -/
def state_after {σ α : Type} (f : σ → List α × σ) : σ → ℕ → σ
  | s, 0 => s
  | s, n + 1 => state_after f (f s).2 n

/-- The storage contents after a run completed its first n chunks: the
chunks in order, each paired with the chain state at its end. -/
def chunk_store {σ α : Type} (f : σ → List α × σ) (s : σ) : ℕ → List (List α × σ)
  | 0 => []
  | n + 1 => chunk_store f s n ++ [(nth_chunk f s n, state_after f s (n + 1))]

/-- Modelled from the spec: resuming produces the next chunk from the final
state of the last complete chunk found in storage (or from the initial
state when storage holds none); the trailing partial chunk, if any, is
discarded and plays no part. -/
def resume_next_chunk {σ α : Type} (f : σ → List α × σ) (init : σ)
    (complete : List (List α × σ)) (discarded : List α) : List α :=
  match complete.getLast? with
  | none => (f init).1
  | some c => (f c.2).1

/-- A concrete symmetric proposal density, used by witnesses. -/
def pSym : ProposalDensity := { log_density := fun x y => x + y }

/- ================================================================== -/
/- Theorems. -/

theorem debug_level_le_one : debug_level_B ≤ 1 := by
  norm_num [debug_level_B]

/-- C3: with the hard-coded member constant debug_level_B = 1.0, every
public evaluation method of BMesonLCDAs other than phi_plus and
inverse_lambda_plus returns exactly 0 on every argument: the guard at the
top of each body returns early, and the analytic formulas written in the
bodies are unreachable (they sit in the untaken else branch, whatever the
parameter values and whatever values the math library routines take). -/
theorem claim_C3 (B : BMesonLCDAs) (env : MathEnv) (omega omega_1 omega_2 xi : ℚ) :
    B.phi_minus env omega = 0 ∧ B.phi_bar env omega = 0 ∧ B.phi_bar_d1 env omega = 0 ∧
    B.g_plus env omega = 0 ∧ B.g_plus_d1 env omega = 0 ∧ B.g_plus_d2 env omega = 0 ∧
    B.g_minusWW env omega = 0 ∧ B.g_minusWW_d1 env omega = 0 ∧
    B.g_minusWW_d2 env omega = 0 ∧
    B.g_bar env omega = 0 ∧ B.g_bar_d1 env omega = 0 ∧ B.g_bar_d2 env omega = 0 ∧
    B.g_bar_d3 env omega = 0 ∧
    B.phi_3 env omega_1 omega_2 = 0 ∧ B.phi_4 env omega_1 omega_2 = 0 ∧
    B.phi_bar_3 env omega_1 omega_2 = 0 ∧ B.phi_bar_4 env omega_1 omega_2 = 0 ∧
    B.phi_bar2_3 env omega_1 omega_2 = 0 ∧ B.phi_bar2_4 env omega_1 omega_2 = 0 ∧
    B.phi_bar_bar_3 env omega_1 omega_2 = 0 ∧ B.phi_bar_bar_4 env omega_1 omega_2 = 0 ∧
    B.psi_bar_4 env omega_1 omega_2 = 0 ∧ B.psi_bar_bar_4 env omega_1 omega_2 = 0 ∧
    B.chi_bar_4 env omega_1 omega_2 = 0 ∧ B.chi_bar_bar_4 env omega_1 omega_2 = 0 ∧
    B.psi_A env omega xi = 0 ∧ B.psi_V env omega xi = 0 ∧
    B.X_A env omega xi = 0 ∧ B.Y_A env omega xi = 0 ∧
    B.Xbar_A env omega xi = 0 ∧ B.Ybar_A env omega xi = 0 := by
  simp [BMesonLCDAs.phi_minus, BMesonLCDAs.phi_bar, BMesonLCDAs.phi_bar_d1,
    BMesonLCDAs.g_plus, BMesonLCDAs.g_plus_d1, BMesonLCDAs.g_plus_d2,
    BMesonLCDAs.g_minusWW, BMesonLCDAs.g_minusWW_d1, BMesonLCDAs.g_minusWW_d2,
    BMesonLCDAs.g_bar, BMesonLCDAs.g_bar_d1, BMesonLCDAs.g_bar_d2, BMesonLCDAs.g_bar_d3,
    BMesonLCDAs.phi_3, BMesonLCDAs.phi_4, BMesonLCDAs.phi_bar_3, BMesonLCDAs.phi_bar_4,
    BMesonLCDAs.phi_bar2_3, BMesonLCDAs.phi_bar2_4,
    BMesonLCDAs.phi_bar_bar_3, BMesonLCDAs.phi_bar_bar_4,
    BMesonLCDAs.psi_bar_4, BMesonLCDAs.psi_bar_bar_4,
    BMesonLCDAs.chi_bar_4, BMesonLCDAs.chi_bar_bar_4,
    BMesonLCDAs.psi_A, BMesonLCDAs.psi_V, BMesonLCDAs.X_A, BMesonLCDAs.Y_A,
    BMesonLCDAs.Xbar_A, BMesonLCDAs.Ybar_A, debug_level_B]

/-- C9: every evaluation method of BcMesonLCDAs except phi_plus, phi_minus,
phi_bar and phi_bar_d1 returns exactly 0 on every input, and
BcMesonLCDAs::inverse_lambda_plus returns 0.0 unconditionally. -/
theorem claim_C9 (B : BcMesonLCDAs) (env : MathEnv) (omega omega_1 omega_2 xi : ℚ) :
    B.g_plus env omega = 0 ∧ B.g_plus_d1 env omega = 0 ∧ B.g_plus_d2 env omega = 0 ∧
    B.g_minusWW env omega = 0 ∧ B.g_minusWW_d1 env omega = 0 ∧
    B.g_minusWW_d2 env omega = 0 ∧
    B.g_bar env omega = 0 ∧ B.g_bar_d1 env omega = 0 ∧ B.g_bar_d2 env omega = 0 ∧
    B.g_bar_d3 env omega = 0 ∧
    B.phi_3 env omega_1 omega_2 = 0 ∧ B.phi_4 env omega_1 omega_2 = 0 ∧
    B.phi_bar_3 env omega_1 omega_2 = 0 ∧ B.phi_bar_4 env omega_1 omega_2 = 0 ∧
    B.phi_bar2_3 env omega_1 omega_2 = 0 ∧ B.phi_bar2_4 env omega_1 omega_2 = 0 ∧
    B.phi_bar_bar_3 env omega_1 omega_2 = 0 ∧ B.phi_bar_bar_4 env omega_1 omega_2 = 0 ∧
    B.psi_bar_4 env omega_1 omega_2 = 0 ∧ B.psi_bar_bar_4 env omega_1 omega_2 = 0 ∧
    B.chi_bar_4 env omega_1 omega_2 = 0 ∧ B.chi_bar_bar_4 env omega_1 omega_2 = 0 ∧
    B.psi_A env omega xi = 0 ∧ B.psi_V env omega xi = 0 ∧
    B.X_A env omega xi = 0 ∧ B.Y_A env omega xi = 0 ∧
    B.Xbar_A env omega xi = 0 ∧ B.Ybar_A env omega xi = 0 ∧
    B.inverse_lambda_plus = 0 := by
  exact ⟨rfl, rfl, rfl, rfl, rfl, rfl, rfl, rfl, rfl, rfl, rfl, rfl, rfl, rfl, rfl,
    rfl, rfl, rfl, rfl, rfl, rfl, rfl, rfl, rfl, rfl, rfl, rfl, rfl, rfl⟩

theorem destringifyNat_natCast (n : ℕ) : destringifyNat (Tok.num (n : ℚ)) = Except.ok n := by
  simp [destringifyNat]

theorem parseArgs_nil (now : ℕ) (gas : List Tok) (st : CmdState) :
    parseArgs now gas st [] = Except.ok st := by
  cases gas <;> rfl

/-- C1: evaluation of CommandLine::parse at each single flag.  The numeric
flags do set exactly the field they name, from any prior state: --chains
sets number_of_chains, --chunk-size sets chunk_size, --chunks sets chunks,
--seed sets seed, and nothing else changes.  The --parallel flag, however,
assigns parallelize := false from every state — the flag can never set the
option to true, contradicting the claim (and the evident intent of a flag
of that name, which also copies the value into the PMC configuration to
propagate an enabled setting). -/
theorem claim_C1 (now : ℕ) (st : CmdState) (n c k s : ℕ) :
    parse now st [Tok.str "--chains", Tok.num (n : ℚ)]
      = Except.ok { st with mcmc_config := { st.mcmc_config with number_of_chains := n } } ∧
    parse now st [Tok.str "--chunk-size", Tok.num (c : ℚ)]
      = Except.ok { st with mcmc_config := { st.mcmc_config with chunk_size := c } } ∧
    parse now st [Tok.str "--chunks", Tok.num (k : ℚ)]
      = Except.ok { st with mcmc_config := { st.mcmc_config with chunks := k } } ∧
    parse now st [Tok.str "--seed", Tok.num (s : ℚ)]
      = Except.ok { st with mcmc_config := { st.mcmc_config with seed := s } } ∧
    parse now st [Tok.str "--parallel"]
      = Except.ok { st with mcmc_config := { st.mcmc_config with parallelize := false } } := by
  refine ⟨?_, ?_, ?_, ?_, rfl⟩
  · have h : parse now st [Tok.str "--chains", Tok.num (n : ℚ)]
        = (match destringifyNat (Tok.num (n : ℚ)) with
           | Except.error e => Except.error e
           | Except.ok m =>
             Except.ok { st with mcmc_config := { st.mcmc_config with number_of_chains := m } }) := rfl
    rw [h, destringifyNat_natCast]
  · have h : parse now st [Tok.str "--chunk-size", Tok.num (c : ℚ)]
        = (match destringifyNat (Tok.num (c : ℚ)) with
           | Except.error e => Except.error e
           | Except.ok m =>
             Except.ok { st with mcmc_config := { st.mcmc_config with chunk_size := m } }) := rfl
    rw [h, destringifyNat_natCast]
  · have h : parse now st [Tok.str "--chunks", Tok.num (k : ℚ)]
        = (match destringifyNat (Tok.num (k : ℚ)) with
           | Except.error e => Except.error e
           | Except.ok m =>
             Except.ok { st with mcmc_config := { st.mcmc_config with chunks := m } }) := rfl
    rw [h, destringifyNat_natCast]
  · have h : parse now st [Tok.str "--seed", Tok.num (s : ℚ)]
        = (match destringifyNat (Tok.num (s : ℚ)) with
           | Except.error e => Except.error e
           | Except.ok m =>
             Except.ok { st with mcmc_config := { st.mcmc_config with seed := m } }) := rfl
    rw [h, destringifyNat_natCast]

theorem parseArgs_duplicate (now : ℕ) (g0 : Tok) (gas : List Tok) (st : CmdState)
    (name : String) (mn mx : ℚ)
    (hmem : name ∈ st.log_posterior.descriptions.map Prod.fst) :
    parseArgs now (g0 :: gas) st
      [Tok.str "--nuisance", Tok.str name, Tok.num mn, Tok.num mx,
       Tok.str "--prior", Tok.str "flat"]
      = Except.error ("Error in assigning flat prior distribution to " ++ name
          ++ ". Perhaps " ++ name ++ " appears twice in the list of parameters?") := by
  have hadd : st.log_posterior.add (LogPriorSpec.flat name mn mx) true = none := by
    simp [PosteriorModel.add, LogPriorSpec.paramName, hmem]
  have h : parseArgs now (g0 :: gas) st
      [Tok.str "--nuisance", Tok.str name, Tok.num mn, Tok.num mx,
       Tok.str "--prior", Tok.str "flat"]
      = (match st.log_posterior.add (LogPriorSpec.flat name mn mx) true with
         | none => Except.error ("Error in assigning flat prior distribution to " ++ name
             ++ ". Perhaps " ++ name ++ " appears twice in the list of parameters?")
         | some lp2 => parseArgs now gas
             { st with
               nuisance_parameters :=
                 st.nuisance_parameters ++ [{ name := name, min := mn, max := mx, prior := "flat" }],
               log_posterior := lp2 } []) := rfl
  rw [h, hadd]

/-- C2: a command line that assigns a prior to the same parameter twice (a
--scan and a --nuisance clause for one name) makes parse throw the
descriptive DoUsage error coming from the failed LogPosterior::add, and a
--proposal MultivariateStudentT clause with non-positive degrees of freedom
makes parse throw its descriptive DoUsage error, from any state.  A parse
error is thrown during setup: main catches it and exits before any sampler
is constructed, so no sampling begins and no silent defaulting occurs. -/
theorem claim_C2 (now : ℕ) (quick : MCMCConfig) (name : String) (mn mx dof : ℚ)
    (hdof : dof ≤ 0) :
    parse now (CmdState.init quick)
      [Tok.str "--scan", Tok.str name, Tok.num mn, Tok.num mx,
       Tok.str "--prior", Tok.str "flat",
       Tok.str "--nuisance", Tok.str name, Tok.num mn, Tok.num mx,
       Tok.str "--prior", Tok.str "flat"]
      = Except.error ("Error in assigning flat prior distribution to " ++ name
          ++ ". Perhaps " ++ name ++ " appears twice in the list of parameters?") ∧
    ∀ st : CmdState,
      parse now st [Tok.str "--proposal", Tok.str "MultivariateStudentT", Tok.num dof]
        = Except.error
            "No (or non-positive) degree of freedom for MultivariateStudentT specified" := by
  constructor
  · have h : parse now (CmdState.init quick)
        [Tok.str "--scan", Tok.str name, Tok.num mn, Tok.num mx,
         Tok.str "--prior", Tok.str "flat",
         Tok.str "--nuisance", Tok.str name, Tok.num mn, Tok.num mx,
         Tok.str "--prior", Tok.str "flat"]
        = parseArgs now
            [Tok.str name, Tok.num mn, Tok.num mx, Tok.str "--prior", Tok.str "flat",
             Tok.str "--nuisance", Tok.str name, Tok.num mn, Tok.num mx,
             Tok.str "--prior", Tok.str "flat"]
            { CmdState.init quick with
                scan_parameters := [{ name := name, min := mn, max := mx, prior := "flat" }],
                log_posterior :=
                  { descriptions := [(name, false)], priors := [LogPriorSpec.flat name mn mx] } }
            [Tok.str "--nuisance", Tok.str name, Tok.num mn, Tok.num mx,
             Tok.str "--prior", Tok.str "flat"] := rfl
    rw [h, parseArgs_duplicate]
    simp
  · intro st
    have h : parse now st [Tok.str "--proposal", Tok.str "MultivariateStudentT", Tok.num dof]
        = (if dof ≤ 0 then
             Except.error
               "No (or non-positive) degree of freedom for MultivariateStudentT specified"
           else parseArgs now [Tok.num dof]
             { st with mcmc_config := { st.mcmc_config with
                 proposal := "MultivariateStudentT", student_t_degrees_of_freedom := dof } }
             []) := rfl
    rw [h, if_pos hdof]

theorem claim_C2_witness :
    (0 : ℚ) ≤ 0 ∧
    parse 0 (CmdState.init quickDefault)
      [Tok.str "--scan", Tok.str "b", Tok.num 0, Tok.num 1,
       Tok.str "--prior", Tok.str "flat",
       Tok.str "--nuisance", Tok.str "b", Tok.num 0, Tok.num 1,
       Tok.str "--prior", Tok.str "flat"]
      = Except.error ("Error in assigning flat prior distribution to " ++ "b"
          ++ ". Perhaps " ++ "b" ++ " appears twice in the list of parameters?") ∧
    parse 0 (CmdState.init quickDefault)
      [Tok.str "--proposal", Tok.str "MultivariateStudentT", Tok.num 0]
      = Except.error
          "No (or non-positive) degree of freedom for MultivariateStudentT specified" :=
  ⟨le_refl 0,
   (claim_C2 0 quickDefault "b" 0 1 0 (le_refl 0)).1,
   (claim_C2 0 quickDefault "b" 0 1 0 (le_refl 0)).2 (CmdState.init quickDefault)⟩

/-- C10: parsing a scan clause in the form NAME MIN MAX N_SIGMAS followed by
a gaussian prior LOWER CENTRAL UPPER with 0 < N_SIGMAS (at most 10, the
verified bound) registers the parameter with the range
[max(MIN, CENTRAL - N_SIGMAS (CENTRAL - LOWER)),
 min(MAX, CENTRAL + N_SIGMAS (UPPER - CENTRAL))], both for the recorded
scan-parameter data and for the prior handed to the posterior; the
sigma-derived range never extends beyond the user-supplied hard bounds. -/
theorem claim_C10 (now : ℕ) (st : CmdState) (name : String)
    (mn mx ns lower central upper : ℚ)
    (h1 : 0 < ns) (h2 : ns ≤ 10)
    (hf : name ∉ st.log_posterior.descriptions.map Prod.fst) :
    parse now st
      [Tok.str "--scan", Tok.str name, Tok.num mn, Tok.num mx, Tok.num ns,
       Tok.str "--prior", Tok.str "gaussian", Tok.num lower, Tok.num central, Tok.num upper]
      = Except.ok { st with
          scan_parameters := st.scan_parameters ++
            [{ name := name
             , min := Max.max mn (central - ns * (central - lower))
             , max := Min.min mx (central + ns * (upper - central))
             , prior := "gaussian" }],
          log_posterior :=
            { descriptions := st.log_posterior.descriptions ++ [(name, false)]
            , priors := st.log_posterior.priors ++
                [LogPriorSpec.gauss name
                  (Max.max mn (central - ns * (central - lower)))
                  (Min.min mx (central + ns * (upper - central)))
                  lower central upper] } } ∧
    mn ≤ Max.max mn (central - ns * (central - lower)) ∧
    Min.min mx (central + ns * (upper - central)) ≤ mx := by
  have hvr : verifiedRange 0 10 ns = Except.ok ns := by
    simp [verifiedRange, h1.le, h2]
  have h : parse now st
      [Tok.str "--scan", Tok.str name, Tok.num mn, Tok.num mx, Tok.num ns,
       Tok.str "--prior", Tok.str "gaussian", Tok.num lower, Tok.num central, Tok.num upper]
      = (match verifiedRange 0 10 ns with
         | Except.error e => Except.error e
         | Except.ok ns2 =>
           if ns2 = 0 then Except.error "number of sigmas: number expected"
           else
             let rmin := if 0 < ns2 then Max.max mn (central - ns2 * (central - lower)) else mn
             let rmax := if 0 < ns2 then Min.min mx (central + ns2 * (upper - central)) else mx
             let pd : ParameterData := { name := name, min := rmin, max := rmax, prior := "gaussian" }
             let st2 := { st with scan_parameters := st.scan_parameters ++ [pd] }
             match st2.log_posterior.add (LogPriorSpec.gauss name rmin rmax lower central upper) false with
             | none => Except.error ("Error in assigning gaussian prior distribution to " ++ name
                 ++ ". Perhaps " ++ name ++ " appears twice in the list of parameters?")
             | some lp2 => parseArgs now
                 [Tok.str name, Tok.num mn, Tok.num mx, Tok.num ns,
                  Tok.str "--prior", Tok.str "gaussian", Tok.num lower, Tok.num central, Tok.num upper]
                 { st2 with log_posterior := lp2 } []) := rfl
  have hadd : st.log_posterior.add
      (LogPriorSpec.gauss name (Max.max mn (central - ns * (central - lower)))
        (Min.min mx (central + ns * (upper - central))) lower central upper) false
      = some { descriptions := st.log_posterior.descriptions ++ [(name, false)]
             , priors := st.log_posterior.priors ++
                 [LogPriorSpec.gauss name (Max.max mn (central - ns * (central - lower)))
                   (Min.min mx (central + ns * (upper - central))) lower central upper] } := by
    simp [PosteriorModel.add, LogPriorSpec.paramName, hf]
  refine ⟨?_, le_max_left _ _, min_le_left _ _⟩
  rw [h, hvr]
  simp only [if_neg h1.ne', if_pos h1, hadd, parseArgs_nil]

theorem claim_C10_witness :
    (0 : ℚ) < 2 ∧ (2 : ℚ) ≤ 10 ∧
    "b" ∉ (CmdState.init quickDefault).log_posterior.descriptions.map Prod.fst ∧
    (parse 0 (CmdState.init quickDefault)
      [Tok.str "--scan", Tok.str "b", Tok.num 3.8, Tok.num 5, Tok.num 2,
       Tok.str "--prior", Tok.str "gaussian", Tok.num 4.14, Tok.num 4.27, Tok.num 4.37]
      = Except.ok { CmdState.init quickDefault with
          scan_parameters := (CmdState.init quickDefault).scan_parameters ++
            [{ name := "b"
             , min := Max.max 3.8 (4.27 - 2 * (4.27 - 4.14))
             , max := Min.min 5 (4.27 + 2 * (4.37 - 4.27))
             , prior := "gaussian" }],
          log_posterior :=
            { descriptions := (CmdState.init quickDefault).log_posterior.descriptions ++ [("b", false)]
            , priors := (CmdState.init quickDefault).log_posterior.priors ++
                [LogPriorSpec.gauss "b"
                  (Max.max 3.8 (4.27 - 2 * (4.27 - 4.14)))
                  (Min.min 5 (4.27 + 2 * (4.37 - 4.27)))
                  4.14 4.27 4.37] } } ∧
      (3.8 : ℚ) ≤ Max.max 3.8 (4.27 - 2 * (4.27 - 4.14)) ∧
      Min.min 5 (4.27 + 2 * (4.37 - 4.27)) ≤ (5 : ℚ)) :=
  ⟨by norm_num, by norm_num, by simp [CmdState.init],
   claim_C10 0 (CmdState.init quickDefault) "b" 3.8 5 2 4.14 4.27 4.37
     (by norm_num) (by norm_num) (by simp [CmdState.init])⟩

theorem qMean_replicate (K : ℕ) (x : ℚ) (hK : K ≠ 0) : qMean (List.replicate K x) = x := by
  simp [qMean, List.sum_replicate, nsmul_eq_mul]
  exact mul_div_cancel_left₀ x (Nat.cast_ne_zero.mpr hK)

theorem qVar_replicate (K : ℕ) (x : ℚ) : qVar (List.replicate K x) = 0 := by
  cases K with
  | zero => simp [qVar]
  | succ k =>
    rw [qVar, qMean_replicate _ _ (Nat.succ_ne_zero k)]
    simp

theorem headD_replicate_of_pos (K : ℕ) (c : List ℚ) (hK : K ≠ 0) :
    (List.replicate K c).headD [] = c := by
  cases K with
  | zero => exact absurd rfl hK
  | succ k => rfl

/-- C4 (amended): for a group of K greater-equal 2 chains whose per-step
values are identical across chains (so the between-chain variance of the
chain means is zero), the value produced by compute_r_value under the
specified formula R = sqrt(((n-1)/n) + (B/W)/n) equals sqrt((n-1)/n), which
is strictly below 1 for every finite block length n greater-equal 1; it
approaches 1 only as n grows, and is not equal to 1.0 within floating
tolerance for small n. -/
theorem claim_C4 (c : List ℚ) (K n : ℕ) (hK : 2 ≤ K) (hn : c.length = n) (h1 : 1 ≤ n) :
    compute_r_value (List.replicate K c) = Real.sqrt (((n : ℝ) - 1) / n) ∧
    compute_r_value (List.replicate K c) < 1 := by
  have hK0 : K ≠ 0 := by omega
  have he : compute_r_value (List.replicate K c) = Real.sqrt (((n : ℝ) - 1) / n) := by
    rw [compute_r_value]
    rw [headD_replicate_of_pos _ _ hK0, hn]
    rw [List.map_replicate, qVar_replicate]
    simp
  refine ⟨he, ?_⟩
  rw [he]
  have hn0 : (0 : ℝ) < n := by exact_mod_cast h1
  apply (Real.sqrt_lt' one_pos).2
  rw [one_pow, div_lt_one hn0]
  linarith

theorem claim_C4_witness :
    2 ≤ 2 ∧ List.length [(0 : ℚ), 1, 2] = 3 ∧ 1 ≤ 3 ∧
    (compute_r_value (List.replicate 2 [(0 : ℚ), 1, 2])
        = Real.sqrt (((3 : ℝ) - 1) / 3) ∧
      compute_r_value (List.replicate 2 [(0 : ℚ), 1, 2]) < 1) :=
  ⟨le_refl 2, rfl, by norm_num,
   claim_C4 [0, 1, 2] 2 3 (le_refl 2) rfl (by norm_num)⟩

/-- C4 (counterexample to the claim as stated): two chains with the
identical per-step values 0 and 1 have zero between-chain variance and
equal within-chain variance 1/4, yet the R-value under the specified
formula is sqrt(1/2), which is not equal to 1.0 within any floating
tolerance (here 1e-9). -/
theorem claim_C4_counterexample :
    ¬ |compute_r_value [[0, 1], [0, 1]] - 1| ≤ 1e-9 := by
  have e : compute_r_value [[0, 1], [0, 1]] = Real.sqrt (1 / 2) := by
    rw [compute_r_value]
    norm_num [qMean, qVar]
  have h1 : Real.sqrt (1 / 2) < 4 / 5 := by
    rw [show (1 / 2 : ℝ) = (1 / 2 : ℚ) by norm_num]
    apply (Real.sqrt_lt' (by norm_num)).2
    norm_num
  intro hc
  rw [e, abs_le] at hc
  have := hc.1
  rw [show (1 / 2 : ℝ) = (1 / 2 : ℚ) by norm_num] at h1
  linarith

/-- C5: for every symmetric proposal density the acceptance probability of
accept_or_reject equals exactly min(1, exp(log_posterior_candidate -
log_posterior_current)): the Hastings correction term cancels to zero and
no other correction appears. -/
theorem claim_C5 (env : MathEnv) (p : ProposalDensity) (hsym : p.IsSymmetric)
    (cur cand lp_cur lp_cand : ℚ) :
    acceptance_probability env p cur cand lp_cur lp_cand
      = min 1 (env.exp (lp_cand - lp_cur)) := by
  unfold acceptance_probability hastings_correction
  rw [hsym cand cur, sub_self, add_zero]

theorem claim_C5_witness :
    pSym.IsSymmetric ∧
    acceptance_probability envId pSym 0 2 3 5 = min 1 (envId.exp (5 - 3)) :=
  ⟨fun x y => add_comm x y,
   claim_C5 envId pSym (fun x y => add_comm x y) 0 2 3 5⟩

theorem accept_or_reject_iterations (env : MathEnv) (u cand : ℚ) (lp : Option ℚ)
    (st : MarkovChainState) :
    (accept_or_reject env u cand lp st).iterations = st.iterations + 1 := by
  cases lp with
  | none => rfl
  | some l =>
    rw [accept_or_reject]
    split <;> rfl

theorem chain_run_iterations (env : MathEnv) (props : List (ℚ × Option ℚ × ℚ)) :
    ∀ st : MarkovChainState,
      (chain_run env st props).iterations = st.iterations + props.length := by
  induction props with
  | nil => intro st; simp [chain_run]
  | cons pc rest ih =>
    intro st
    have hstep : chain_run env st (pc :: rest)
        = chain_run env (accept_or_reject env pc.2.2 pc.1 pc.2.1 st) rest := rfl
    rw [hstep, ih, accept_or_reject_iterations]
    simp [List.length_cons]
    omega

/-- C6: when the log-posterior evaluation at the proposed point raises a
domain error (evaluation result none, treated as log-posterior minus
infinity), accept_or_reject rejects the proposal: the current point and
current log-posterior are unchanged, only the rejection bookkeeping (the
rejection counter, the iteration counter and the re-recorded history entry)
advances; and a run containing such a failing proposal still completes all
of its iterations — the failure is not fatal and sampling continues. -/
theorem claim_C6 (env : MathEnv) (u cand : ℚ) (st : MarkovChainState)
    (pre post : List (ℚ × Option ℚ × ℚ)) :
    accept_or_reject env u cand none st
      = { st with rejected := st.rejected + 1
                , iterations := st.iterations + 1
                , history := st.history ++ [(st.current_point, st.current_log_posterior)] } ∧
    (chain_run env st (pre ++ (cand, none, u) :: post)).iterations
      = st.iterations + (pre.length + 1 + post.length) := by
  refine ⟨rfl, ?_⟩
  rw [chain_run_iterations]
  simp [List.length_append]
  omega

/-- C7: for a fixed seed the sampling run is a deterministic function of
the chain configuration and the seed.  In the embedding, all randomness is
drawn from the seeded generator threaded through mcmc_loop and no other
source of nondeterminism exists, so two runs over equal seeds produce
bit-identical sample sequences. -/
theorem claim_C7 (env : MathEnv) (log_post : ℚ → Option ℚ) (cfg : SamplerRunConfig)
    (seed1 seed2 : ℕ) (hseed : seed1 = seed2) :
    mcmc_sample_run env log_post cfg seed1 = mcmc_sample_run env log_post cfg seed2 := by
  rw [hseed]

theorem claim_C7_witness :
    (1 : ℕ) = 1 ∧
    mcmc_sample_run envId (fun q => some q)
        { iterations := 3, proposal_scale := 1, start_point := 0 } 1
      = mcmc_sample_run envId (fun q => some q)
        { iterations := 3, proposal_scale := 1, start_point := 0 } 1 :=
  ⟨rfl,
   claim_C7 envId (fun q => some q)
     { iterations := 3, proposal_scale := 1, start_point := 0 } 1 1 rfl⟩

theorem nth_chunk_state_after {σ α : Type} (f : σ → List α × σ) :
    ∀ (N : ℕ) (s : σ), nth_chunk f s N = (f (state_after f s N)).1 := by
  intro N
  induction N with
  | zero => intro s; rfl
  | succ n ih => intro s; exact ih (f s).2

/-- C8: resuming an MCMC run whose storage already contains N complete
chunks restarts from the final state of the last complete chunk, discards
any trailing partial chunk, and produces exactly the chunk an uninterrupted
run (same initial state, hence same seed) would produce as its chunk with
index N. -/
theorem claim_C8 {σ α : Type} (f : σ → List α × σ) (init : σ) (N : ℕ)
    (junk : List α) :
    resume_next_chunk f init (chunk_store f init N) junk = nth_chunk f init N := by
  cases N with
  | zero => rfl
  | succ n =>
    have hlast : (chunk_store f init (n + 1)).getLast?
        = some (nth_chunk f init n, state_after f init (n + 1)) := by
      rw [chunk_store]
      simp
    rw [resume_next_chunk, hlast]
    show (f (state_after f init (n + 1))).1 = nth_chunk f init (n + 1)
    exact (nth_chunk_state_after f (n + 1) init).symm
